import Mathlib

/-!
Verification of the `usrp_echotimer_dual_cw_rcs` GNU Radio flow graph
(`src/__software__/gnuradio/usrp_echotimer_dual_cw_rcs.py`).

The flow graph is a Python class holding mutable top-level variables
(`samp_rate`, `packet_len`, `freq_res`, ...), a set of processing blocks
constructed from those variables, and getter/setter methods that mirror the
GRC-generated dependency chain.  We embed the class state as a structure
over `ℚ` (Python floats and ints are modelled as exact rationals; `int(x)`
is modelled as truncation toward zero) and each setter as a state
transformer translated statement by statement from the source.
-/

/-- Python `int(x)` applied to a rational: truncation toward zero. -/
def pyInt (q : ℚ) : ℤ := if 0 ≤ q then ⌊q⌋ else ⌈q⌉

/-- State of the `usrp_echotimer_dual_cw_rcs` top block: the mutable
variables of the class (lines 74-91 of the source) together with the
parameters held by the live pipeline blocks that the setters can reach
(lines 127-160).  Block parameters are named after the block instance that
owns them. -/
structure usrp_echotimer_dual_cw_rcs where
  samp_rate : ℚ
  packet_len : ℚ
  freq_res : ℚ
  freq : ℚ × ℚ
  center_freq : ℚ
  v_res : ℚ
  time_res : ℚ
  threshold : ℚ
  samp_protect : ℚ
  range_time : ℚ
  range_res : ℚ
  min_output_buffer : ℤ
  max_output_buffer : ℤ
  gain_tx : ℚ
  gain_rx : ℚ
  delay_samp : ℚ
  decim_fac : ℚ
  amplitude : ℚ
  /-- `rational_resampler_xxx_0.decimation`, fixed at construction. -/
  rational_resampler_0_decimation : ℕ
  /-- `rational_resampler_xxx_0_0.decimation`, fixed at construction. -/
  rational_resampler_0_0_decimation : ℕ
  /-- `radar_usrp_echotimer_cc_0` transmit gain. -/
  echotimer_tx_gain : ℚ
  /-- `radar_usrp_echotimer_cc_0` receive gain. -/
  echotimer_rx_gain : ℚ
  /-- `radar_usrp_echotimer_cc_0` number of delay samples. -/
  echotimer_num_delay_samps : ℤ
  /-- `radar_ts_fft_cc_0` transform length, fixed at construction. -/
  ts_fft_0_len : ℕ
  /-- `radar_ts_fft_cc_0_0` transform length, fixed at construction. -/
  ts_fft_0_0_len : ℕ
  /-- `radar_signal_generator_cw_c_0` packet length. -/
  signal_generator_0_packet_len : ℚ
  /-- `radar_signal_generator_cw_c_0` sample rate. -/
  signal_generator_0_samp_rate : ℚ
  /-- `radar_signal_generator_cw_c_0` tone frequency (`freq[0]`). -/
  signal_generator_0_freq : ℚ
  /-- `radar_signal_generator_cw_c_0` amplitude. -/
  signal_generator_0_amplitude : ℚ
  /-- `radar_signal_generator_cw_c_0_0` packet length. -/
  signal_generator_0_0_packet_len : ℚ
  /-- `radar_signal_generator_cw_c_0_0` sample rate. -/
  signal_generator_0_0_samp_rate : ℚ
  /-- `radar_signal_generator_cw_c_0_0` tone frequency (`freq[1]`). -/
  signal_generator_0_0_freq : ℚ
  /-- `radar_signal_generator_cw_c_0_0` amplitude. -/
  signal_generator_0_0_amplitude : ℚ
  /-- `radar_find_max_peak_c_0` sample rate (`samp_rate//decim_fac`). -/
  find_max_peak_samp_rate : ℕ
  /-- `radar_find_max_peak_c_0` magnitude threshold. -/
  find_max_peak_threshold : ℚ
  /-- `radar_find_max_peak_c_0` guard width (protected samples). -/
  find_max_peak_samp_protect : ℤ
  /-- `radar_find_max_peak_c_0` search window, `[-300,300]` at construction. -/
  find_max_peak_max_freq : ℚ × ℚ
  /-- `blocks_tagged_stream_multiply_length_0` scalar. -/
  tagged_stream_multiply_length_0_scalar : ℚ
  /-- `blocks_tagged_stream_multiply_length_0_0` scalar. -/
  tagged_stream_multiply_length_0_0_scalar : ℚ

namespace usrp_echotimer_dual_cw_rcs

/-- The state built by `__init__` (lines 74-160): variable initialisers
evaluated in source order, then each block constructed from the current
variable values.  `14.25e6 = 14250000`, `2**21 = 2097152`, `3e8 = 300000000`,
`2.4e9 = 2400000000`, `2**7 = 128`; `samp_rate//decim_fac = 111328` and
`packet_len//decim_fac = 16384` are Python integer floor divisions. -/
def construct : usrp_echotimer_dual_cw_rcs where
  samp_rate := 14250000
  packet_len := 2097152
  freq_res := 14250000 / 2097152
  freq := (-3000000, 3000000)
  center_freq := 2400000000
  v_res := (14250000 / 2097152) * 300000000 / 2 / 2400000000
  time_res := 2097152 / 14250000
  threshold := -200
  samp_protect := 1
  range_time := 60
  range_res := 300000000 / 2 / (3000000 - -3000000)
  min_output_buffer := 4194304
  max_output_buffer := 0
  gain_tx := 40
  gain_rx := 10
  delay_samp := 33
  decim_fac := 128
  amplitude := 1/2
  rational_resampler_0_decimation := 128
  rational_resampler_0_0_decimation := 128
  echotimer_tx_gain := 40
  echotimer_rx_gain := 10
  echotimer_num_delay_samps := 33
  ts_fft_0_len := 2097152 / 128
  ts_fft_0_0_len := 2097152 / 128
  signal_generator_0_packet_len := 2097152
  signal_generator_0_samp_rate := 14250000
  signal_generator_0_freq := -3000000
  signal_generator_0_amplitude := 1/2
  signal_generator_0_0_packet_len := 2097152
  signal_generator_0_0_samp_rate := 14250000
  signal_generator_0_0_freq := 3000000
  signal_generator_0_0_amplitude := 1/2
  find_max_peak_samp_rate := 14250000 / 128
  find_max_peak_threshold := -200
  find_max_peak_samp_protect := 1
  find_max_peak_max_freq := (-300, 300)
  tagged_stream_multiply_length_0_scalar := 1 / 128
  tagged_stream_multiply_length_0_0_scalar := 1 / 128

/-- `set_v_res` (lines 233-234). -/
def set_v_res (s : usrp_echotimer_dual_cw_rcs) (v_res : ℚ) :
    usrp_echotimer_dual_cw_rcs :=
  { s with v_res := v_res }

/-- `set_time_res` (lines 239-240). -/
def set_time_res (s : usrp_echotimer_dual_cw_rcs) (time_res : ℚ) :
    usrp_echotimer_dual_cw_rcs :=
  { s with time_res := time_res }

/-- `set_freq_res` (lines 212-214): stores the value, then recomputes
`v_res = freq_res*3e8/2/center_freq`. -/
def set_freq_res (s : usrp_echotimer_dual_cw_rcs) (freq_res : ℚ) :
    usrp_echotimer_dual_cw_rcs :=
  let s := { s with freq_res := freq_res }
  set_v_res s (s.freq_res * 300000000 / 2 / s.center_freq)

/-- `set_min_output_buffer` (lines 271-272). -/
def set_min_output_buffer (s : usrp_echotimer_dual_cw_rcs) (v : ℤ) :
    usrp_echotimer_dual_cw_rcs :=
  { s with min_output_buffer := v }

/-- `set_max_output_buffer` (lines 277-278). -/
def set_max_output_buffer (s : usrp_echotimer_dual_cw_rcs) (v : ℤ) :
    usrp_echotimer_dual_cw_rcs :=
  { s with max_output_buffer := v }

/-- `set_samp_rate` (lines 195-198): stores the value, then
`set_freq_res(samp_rate/packet_len)` and `set_time_res(packet_len/samp_rate)`. -/
def set_samp_rate (s : usrp_echotimer_dual_cw_rcs) (samp_rate : ℚ) :
    usrp_echotimer_dual_cw_rcs :=
  let s := { s with samp_rate := samp_rate }
  let s := set_freq_res s (s.samp_rate / s.packet_len)
  set_time_res s (s.packet_len / s.samp_rate)

/-- `set_packet_len` (lines 203-207): stores the value, then
`set_freq_res`, `set_min_output_buffer(int(packet_len*2))`, `set_time_res`. -/
def set_packet_len (s : usrp_echotimer_dual_cw_rcs) (packet_len : ℚ) :
    usrp_echotimer_dual_cw_rcs :=
  let s := { s with packet_len := packet_len }
  let s := set_freq_res s (s.samp_rate / s.packet_len)
  let s := set_min_output_buffer s (pyInt (s.packet_len * 2))
  set_time_res s (s.packet_len / s.samp_rate)

/-- `set_range_res` (lines 265-266). -/
def set_range_res (s : usrp_echotimer_dual_cw_rcs) (range_res : ℚ) :
    usrp_echotimer_dual_cw_rcs :=
  { s with range_res := range_res }

/-- `set_freq` (lines 219-221): stores the pair, then
`set_range_res(3e8/2/(freq[1]-freq[0]))`. -/
def set_freq (s : usrp_echotimer_dual_cw_rcs) (freq : ℚ × ℚ) :
    usrp_echotimer_dual_cw_rcs :=
  let s := { s with freq := freq }
  set_range_res s (300000000 / 2 / (s.freq.2 - s.freq.1))

/-- `set_center_freq` (lines 226-228): stores the value, then recomputes
`v_res = freq_res*3e8/2/center_freq`. -/
def set_center_freq (s : usrp_echotimer_dual_cw_rcs) (center_freq : ℚ) :
    usrp_echotimer_dual_cw_rcs :=
  let s := { s with center_freq := center_freq }
  set_v_res s (s.freq_res * 300000000 / 2 / s.center_freq)

/-- `set_threshold` (lines 245-247): stores the value and pushes it to the
live peak-detector block. -/
def set_threshold (s : usrp_echotimer_dual_cw_rcs) (threshold : ℚ) :
    usrp_echotimer_dual_cw_rcs :=
  let s := { s with threshold := threshold }
  { s with find_max_peak_threshold := s.threshold }

/-- `set_samp_protect` (lines 252-254): stores the value and pushes
`int(samp_protect)` to the live peak-detector block. -/
def set_samp_protect (s : usrp_echotimer_dual_cw_rcs) (samp_protect : ℚ) :
    usrp_echotimer_dual_cw_rcs :=
  let s := { s with samp_protect := samp_protect }
  { s with find_max_peak_samp_protect := pyInt s.samp_protect }

/-- `set_range_time` (lines 259-260). -/
def set_range_time (s : usrp_echotimer_dual_cw_rcs) (range_time : ℚ) :
    usrp_echotimer_dual_cw_rcs :=
  { s with range_time := range_time }

/-- `set_gain_tx` (lines 283-285): stores the value and pushes it to the
live echotimer block. -/
def set_gain_tx (s : usrp_echotimer_dual_cw_rcs) (gain_tx : ℚ) :
    usrp_echotimer_dual_cw_rcs :=
  let s := { s with gain_tx := gain_tx }
  { s with echotimer_tx_gain := s.gain_tx }

/-- `set_gain_rx` (lines 290-292): stores the value and pushes it to the
live echotimer block. -/
def set_gain_rx (s : usrp_echotimer_dual_cw_rcs) (gain_rx : ℚ) :
    usrp_echotimer_dual_cw_rcs :=
  let s := { s with gain_rx := gain_rx }
  { s with echotimer_rx_gain := s.gain_rx }

/-- `set_delay_samp` (lines 297-299): stores the value and pushes
`int(delay_samp)` to the live echotimer block. -/
def set_delay_samp (s : usrp_echotimer_dual_cw_rcs) (delay_samp : ℚ) :
    usrp_echotimer_dual_cw_rcs :=
  let s := { s with delay_samp := delay_samp }
  { s with echotimer_num_delay_samps := pyInt s.delay_samp }

/-- `set_decim_fac` (lines 304-307): stores the value and pushes
`1.0/decim_fac` to both tagged-stream multiply-length blocks; no other
block is touched. -/
def set_decim_fac (s : usrp_echotimer_dual_cw_rcs) (decim_fac : ℚ) :
    usrp_echotimer_dual_cw_rcs :=
  let s := { s with decim_fac := decim_fac }
  let s := { s with tagged_stream_multiply_length_0_scalar := 1 / s.decim_fac }
  { s with tagged_stream_multiply_length_0_0_scalar := 1 / s.decim_fac }

/-- `set_amplitude` (lines 312-313): stores the value; no block is touched. -/
def set_amplitude (s : usrp_echotimer_dual_cw_rcs) (amplitude : ℚ) :
    usrp_echotimer_dual_cw_rcs :=
  { s with amplitude := amplitude }

/-- `get_samp_rate` (lines 192-193). -/
def get_samp_rate (s : usrp_echotimer_dual_cw_rcs) : ℚ := s.samp_rate

/-- `get_packet_len` (lines 200-201). -/
def get_packet_len (s : usrp_echotimer_dual_cw_rcs) : ℚ := s.packet_len

/-- `get_freq_res` (lines 209-210). -/
def get_freq_res (s : usrp_echotimer_dual_cw_rcs) : ℚ := s.freq_res

/-- `get_freq` (lines 216-217). -/
def get_freq (s : usrp_echotimer_dual_cw_rcs) : ℚ × ℚ := s.freq

/-- `get_center_freq` (lines 223-224). -/
def get_center_freq (s : usrp_echotimer_dual_cw_rcs) : ℚ := s.center_freq

/-- `get_v_res` (lines 230-231). -/
def get_v_res (s : usrp_echotimer_dual_cw_rcs) : ℚ := s.v_res

/-- `get_time_res` (lines 236-237). -/
def get_time_res (s : usrp_echotimer_dual_cw_rcs) : ℚ := s.time_res

/-- `get_threshold` (lines 242-243). -/
def get_threshold (s : usrp_echotimer_dual_cw_rcs) : ℚ := s.threshold

/-- `get_samp_protect` (lines 249-250). -/
def get_samp_protect (s : usrp_echotimer_dual_cw_rcs) : ℚ := s.samp_protect

/-- `get_range_time` (lines 256-257). -/
def get_range_time (s : usrp_echotimer_dual_cw_rcs) : ℚ := s.range_time

/-- `get_range_res` (lines 262-263). -/
def get_range_res (s : usrp_echotimer_dual_cw_rcs) : ℚ := s.range_res

/-- `get_gain_tx` (lines 280-281). -/
def get_gain_tx (s : usrp_echotimer_dual_cw_rcs) : ℚ := s.gain_tx

/-- `get_gain_rx` (lines 287-288). -/
def get_gain_rx (s : usrp_echotimer_dual_cw_rcs) : ℚ := s.gain_rx

/-- `get_delay_samp` (lines 294-295). -/
def get_delay_samp (s : usrp_echotimer_dual_cw_rcs) : ℚ := s.delay_samp

/-- `get_decim_fac` (lines 301-302). -/
def get_decim_fac (s : usrp_echotimer_dual_cw_rcs) : ℚ := s.decim_fac

/-- `get_amplitude` (lines 309-310). -/
def get_amplitude (s : usrp_echotimer_dual_cw_rcs) : ℚ := s.amplitude

end usrp_echotimer_dual_cw_rcs

/-- One call to any public setter of the top block, with its argument. -/
inductive SetterCall where
  | samp_rate (v : ℚ)
  | packet_len (v : ℚ)
  | freq_res (v : ℚ)
  | freq (v : ℚ × ℚ)
  | center_freq (v : ℚ)
  | v_res (v : ℚ)
  | time_res (v : ℚ)
  | threshold (v : ℚ)
  | samp_protect (v : ℚ)
  | range_time (v : ℚ)
  | range_res (v : ℚ)
  | min_output_buffer (v : ℤ)
  | max_output_buffer (v : ℤ)
  | gain_tx (v : ℚ)
  | gain_rx (v : ℚ)
  | delay_samp (v : ℚ)
  | decim_fac (v : ℚ)
  | amplitude (v : ℚ)

/-- Dispatch one setter call on the state. -/
def applySetter (s : usrp_echotimer_dual_cw_rcs) :
    SetterCall → usrp_echotimer_dual_cw_rcs
  | .samp_rate v => s.set_samp_rate v
  | .packet_len v => s.set_packet_len v
  | .freq_res v => s.set_freq_res v
  | .freq v => s.set_freq v
  | .center_freq v => s.set_center_freq v
  | .v_res v => s.set_v_res v
  | .time_res v => s.set_time_res v
  | .threshold v => s.set_threshold v
  | .samp_protect v => s.set_samp_protect v
  | .range_time v => s.set_range_time v
  | .range_res v => s.set_range_res v
  | .min_output_buffer v => s.set_min_output_buffer v
  | .max_output_buffer v => s.set_max_output_buffer v
  | .gain_tx v => s.set_gain_tx v
  | .gain_rx v => s.set_gain_rx v
  | .delay_samp v => s.set_delay_samp v
  | .decim_fac v => s.set_decim_fac v
  | .amplitude v => s.set_amplitude v

/-- `true` exactly for the setter calls `set_freq` and `set_range_res`. -/
def SetterCall.writesRangeRes : SetterCall → Bool
  | .freq _ => true
  | .range_res _ => true
  | _ => false

/-- One call to one of the four top-level parameter setters named by the
spec: `set_samp_rate`, `set_packet_len`, `set_freq`, `set_center_freq`. -/
inductive TopSetterCall where
  | samp_rate (v : ℚ)
  | packet_len (v : ℚ)
  | freq (v : ℚ × ℚ)
  | center_freq (v : ℚ)

/-- Dispatch one top-level setter call on the state. -/
def applyTopSetter (s : usrp_echotimer_dual_cw_rcs) :
    TopSetterCall → usrp_echotimer_dual_cw_rcs
  | .samp_rate v => s.set_samp_rate v
  | .packet_len v => s.set_packet_len v
  | .freq v => s.set_freq v
  | .center_freq v => s.set_center_freq v

/-- Run a sequence of top-level setter calls, oldest first. -/
def runTopSetters (s : usrp_echotimer_dual_cw_rcs) (cs : List TopSetterCall) :
    usrp_echotimer_dual_cw_rcs :=
  cs.foldl applyTopSetter s

/-- The dependency-chain invariant relating the derived quantities to the
parameters they are computed from: `freq_res = samp_rate/packet_len`,
`time_res = packet_len/samp_rate`, `v_res = freq_res*3e8/(2*center_freq)`,
`range_res = 3e8/(2*(freq[1]-freq[0]))`. -/
def consistent (s : usrp_echotimer_dual_cw_rcs) : Prop :=
  s.freq_res = s.samp_rate / s.packet_len ∧
  s.time_res = s.packet_len / s.samp_rate ∧
  s.v_res = s.freq_res * 300000000 / (2 * s.center_freq) ∧
  s.range_res = 300000000 / (2 * (s.freq.2 - s.freq.1))

/-- Modelled from the spec: the `filter.rational_resampler_ccc` block with
`interpolation=1, decimation=d` (the block implementation is GNU Radio
library code, not part of this repository).  Spec 4.4: "Output frame length
is `⌊input_length / decim_fac⌋`". -/
def rational_resampler_output_len (L d : ℕ) : ℕ := L / d

/-- Modelled from the spec: the `blocks.tagged_stream_multiply_length`
block (GNU Radio library code, not part of this repository) rescales the
integer frame-length tag by the configured scalar, here `1/d`; the tag
stored downstream is again an integer length (spec 4.4: the tag "must be
rewritten to this value"), so the scaled value `L * (1/d)` is truncated to
an integer as Python's `int` conversion does. -/
def tagged_stream_multiply_length_tag (L d : ℕ) : ℤ :=
  pyInt ((L : ℚ) * (1 / (d : ℚ)))

/-- A complex sample: GNU Radio's `gr_complex`, embedded with exact
rational real and imaginary parts. -/
structure GrComplex where
  re : ℚ
  im : ℚ
  deriving DecidableEq, Repr

namespace GrComplex

/-- Complex multiplication. -/
def mul (x y : GrComplex) : GrComplex :=
  ⟨x.re * y.re - x.im * y.im, x.re * y.im + x.im * y.re⟩

/-- Complex conjugation. -/
def conj (x : GrComplex) : GrComplex := ⟨x.re, -x.im⟩

end GrComplex

/-- Modelled from the spec: the `blocks.multiply_conjugate_cc` block (GNU
Radio library code, not part of this repository).  Spec 4.3: per index it
"computes `received[i] * conjugate(reference[i])`" over two positionally
aligned frames. -/
def multiply_conjugate_cc (a b : List GrComplex) : List GrComplex :=
  List.zipWith (fun x y => x.mul y.conj) a b

open usrp_echotimer_dual_cw_rcs

/-- Helper: the integer floor of a quotient of naturals in `ℚ` is natural
floor division. -/
lemma int_floor_nat_div (L d : ℕ) : ⌊(L : ℚ) / (d : ℚ)⌋ = ((L / d : ℕ) : ℤ) := by
  rw [← Nat.floor_div_eq_div (α := ℚ) L d, ← Int.floor_toNat]
  exact (Int.toNat_of_nonneg (Int.floor_nonneg.mpr (by positivity))).symm

/-- C1: for every valid (positive integer) decimation factor `d` and every
input frame length `L`, the decimator stage's output frame length equals
`⌊L/d⌋`, and the frame-length tag carried downstream after the
length-scaling step that multiplies the tag by `1/d` equals that same
output length. -/
theorem C1_decimator_length_and_tag (L d : ℕ) (h : 0 < d) :
    (rational_resampler_output_len L d : ℤ) = ⌊(L : ℚ) / (d : ℚ)⌋ ∧
    tagged_stream_multiply_length_tag L d = (rational_resampler_output_len L d : ℤ) := by
  constructor
  · exact (int_floor_nat_div L d).symm
  · unfold tagged_stream_multiply_length_tag rational_resampler_output_len pyInt
    rw [mul_one_div, if_pos (by positivity)]
    exact int_floor_nat_div L d

/-- Witness for C1 at the flow graph's own configuration:
`L = packet_len = 2^21`, `d = decim_fac = 2^7`. -/
theorem C1_decimator_length_and_tag_witness :
    0 < 128 ∧
    ((rational_resampler_output_len 2097152 128 : ℤ) = ⌊(2097152 : ℚ) / (128 : ℚ)⌋ ∧
     tagged_stream_multiply_length_tag 2097152 128 =
       (rational_resampler_output_len 2097152 128 : ℤ)) :=
  ⟨by norm_num, C1_decimator_length_and_tag 2097152 128 (by norm_num)⟩

/-- Helper: `__init__` establishes the dependency-chain invariant. -/
lemma consistent_construct : consistent construct :=
  ⟨rfl, rfl, div_div _ _ _, div_div _ _ _⟩

/-- Helper: each of the four top-level parameter setters preserves the
dependency-chain invariant. -/
lemma consistent_applyTopSetter (s : usrp_echotimer_dual_cw_rcs)
    (c : TopSetterCall) (h : consistent s) : consistent (applyTopSetter s c) := by
  cases c with
  | samp_rate v => exact ⟨rfl, rfl, div_div _ _ _, h.2.2.2⟩
  | packet_len v => exact ⟨rfl, rfl, div_div _ _ _, h.2.2.2⟩
  | freq v => exact ⟨h.1, h.2.1, h.2.2.1, div_div _ _ _⟩
  | center_freq v => exact ⟨h.1, h.2.1, div_div _ _ _, h.2.2.2⟩

/-- C2: after construction and after any sequence of calls to the
top-level parameter setters (`set_samp_rate`, `set_packet_len`, `set_freq`,
`set_center_freq`), the derived quantities simultaneously satisfy
`freq_res = samp_rate/packet_len`, `time_res = packet_len/samp_rate`,
`v_res = freq_res*3e8/(2*center_freq)` and
`range_res = 3e8/(2*(freq[1]-freq[0]))`. -/
theorem C2_dependency_chain_invariant :
    consistent construct ∧
    ∀ cs : List TopSetterCall, consistent (runTopSetters construct cs) := by
  have run : ∀ (cs : List TopSetterCall) (s : usrp_echotimer_dual_cw_rcs),
      consistent s → consistent (runTopSetters s cs) := by
    intro cs
    induction cs with
    | nil => exact fun s h => h
    | cons c cs ih =>
        exact fun s h => ih (applyTopSetter s c) (consistent_applyTopSetter s c h)
  exact ⟨consistent_construct, fun cs => run cs construct consistent_construct⟩

/-- C3: with the default configuration the computed `range_res` equals
`3e8/(2*6e6) = 25` and the computed `time_res` equals
`packet_len/samp_rate = 2^21/14.25e6 ≈ 0.147` seconds. -/
theorem C3_default_resolutions :
    construct.range_res = 25 ∧
    construct.time_res = 2097152 / 14250000 ∧
    (147 : ℚ) / 1000 < construct.time_res ∧ construct.time_res < (148 : ℚ) / 1000 := by
  refine ⟨by norm_num [construct], rfl, by norm_num [construct], by norm_num [construct]⟩

/-- C4 counterexample: `set_amplitude` stores the new amplitude in the
class field but does not update either live signal-generator block, whose
amplitudes stay at the construction value `0.5`; so the claim that every
listed control-surface setter updates the corresponding live pipeline
block parameter fails at the concrete call `set_amplitude(0.9)` on the
freshly constructed flow graph. -/
theorem C4_counterexample :
    (construct.set_amplitude (9/10)).amplitude = 9/10 ∧
    (construct.set_amplitude (9/10)).signal_generator_0_amplitude ≠ 9/10 ∧
    (construct.set_amplitude (9/10)).signal_generator_0_0_amplitude ≠ 9/10 := by
  refine ⟨rfl, ?_, ?_⟩ <;>
    · show (1 : ℚ)/2 ≠ 9/10
      norm_num

/-- C4 as amended: `set_gain_tx`, `set_gain_rx`, `set_delay_samp`,
`set_threshold` and `set_samp_protect` push the new value (through `int()`
where the source does) to their live block; `set_decim_fac` updates only
the two tagged-stream length scalars, leaving the resampler decimations,
FFT lengths and the peak detector's rate at their construction values;
`set_amplitude` updates no block at all; and none of these setters touches
the derived resolutions `freq_res`, `range_res`, `v_res` (no derived
resolution depends on these parameters). -/
theorem C4_amended_control_surface :
    (∀ (s : usrp_echotimer_dual_cw_rcs) (v : ℚ),
      (s.set_gain_tx v).echotimer_tx_gain = v ∧
      (s.set_gain_rx v).echotimer_rx_gain = v ∧
      (s.set_delay_samp v).echotimer_num_delay_samps = pyInt v ∧
      (s.set_threshold v).find_max_peak_threshold = v ∧
      (s.set_samp_protect v).find_max_peak_samp_protect = pyInt v) ∧
    (∀ (s : usrp_echotimer_dual_cw_rcs) (v : ℚ),
      (s.set_decim_fac v).tagged_stream_multiply_length_0_scalar = 1 / v ∧
      (s.set_decim_fac v).tagged_stream_multiply_length_0_0_scalar = 1 / v ∧
      (s.set_decim_fac v).rational_resampler_0_decimation =
        s.rational_resampler_0_decimation ∧
      (s.set_decim_fac v).rational_resampler_0_0_decimation =
        s.rational_resampler_0_0_decimation ∧
      (s.set_decim_fac v).ts_fft_0_len = s.ts_fft_0_len ∧
      (s.set_decim_fac v).ts_fft_0_0_len = s.ts_fft_0_0_len ∧
      (s.set_decim_fac v).find_max_peak_samp_rate = s.find_max_peak_samp_rate) ∧
    (∀ (s : usrp_echotimer_dual_cw_rcs) (v : ℚ),
      (s.set_amplitude v).amplitude = v ∧
      (s.set_amplitude v).signal_generator_0_amplitude =
        s.signal_generator_0_amplitude ∧
      (s.set_amplitude v).signal_generator_0_0_amplitude =
        s.signal_generator_0_0_amplitude) ∧
    (∀ (s : usrp_echotimer_dual_cw_rcs) (c : SetterCall),
      (c.writesRangeRes = false → (applySetter s c).range_res = s.range_res)) ∧
    (∀ (s : usrp_echotimer_dual_cw_rcs) (v : ℚ),
      (s.set_gain_tx v).freq_res = s.freq_res ∧
      (s.set_gain_tx v).v_res = s.v_res ∧
      (s.set_gain_rx v).freq_res = s.freq_res ∧
      (s.set_gain_rx v).v_res = s.v_res ∧
      (s.set_delay_samp v).freq_res = s.freq_res ∧
      (s.set_delay_samp v).v_res = s.v_res ∧
      (s.set_decim_fac v).freq_res = s.freq_res ∧
      (s.set_decim_fac v).v_res = s.v_res ∧
      (s.set_threshold v).freq_res = s.freq_res ∧
      (s.set_threshold v).v_res = s.v_res ∧
      (s.set_samp_protect v).freq_res = s.freq_res ∧
      (s.set_samp_protect v).v_res = s.v_res ∧
      (s.set_amplitude v).freq_res = s.freq_res ∧
      (s.set_amplitude v).v_res = s.v_res) := by
  refine ⟨fun _ _ => ⟨rfl, rfl, rfl, rfl, rfl⟩,
    fun _ _ => ⟨rfl, rfl, rfl, rfl, rfl, rfl, rfl⟩,
    fun _ _ => ⟨rfl, rfl, rfl⟩, fun s c h => ?_,
    fun _ _ => ⟨rfl, rfl, rfl, rfl, rfl, rfl, rfl, rfl, rfl, rfl, rfl, rfl, rfl, rfl⟩⟩
  cases c <;> first
    | rfl
    | exact absurd h (by simp [SetterCall.writesRangeRes])

/-- Witness for C4 as amended: the range-resolution conjunct discharged at
the concrete call `set_gain_tx(7)` on the constructed flow graph. -/
theorem C4_amended_control_surface_witness :
    SetterCall.writesRangeRes (SetterCall.gain_tx 7) = false ∧
    (applySetter construct (SetterCall.gain_tx 7)).range_res = construct.range_res :=
  ⟨rfl, C4_amended_control_surface.2.2.2.1 construct (SetterCall.gain_tx 7) rfl⟩

/-- C5: `set_center_freq` leaves `range_res` (and `freq_res`, `time_res`)
unchanged, storing the new centre frequency and recomputing only `v_res`;
and no setter other than `set_freq` and `set_range_res` ever writes
`range_res`. -/
theorem C5_center_freq_and_range_res :
    (∀ (s : usrp_echotimer_dual_cw_rcs) (v : ℚ),
      (s.set_center_freq v).range_res = s.range_res ∧
      (s.set_center_freq v).center_freq = v ∧
      (s.set_center_freq v).v_res = s.freq_res * 300000000 / 2 / v ∧
      (s.set_center_freq v).freq_res = s.freq_res ∧
      (s.set_center_freq v).time_res = s.time_res) ∧
    (∀ (c : SetterCall) (s : usrp_echotimer_dual_cw_rcs),
      c.writesRangeRes = false → (applySetter s c).range_res = s.range_res) := by
  refine ⟨fun _ _ => ⟨rfl, rfl, rfl, rfl, rfl⟩, fun c s h => ?_⟩
  cases c <;> first
    | rfl
    | exact absurd h (by simp [SetterCall.writesRangeRes])

/-- Witness for C5 at the concrete call `set_center_freq(5.8e9)` (via the
setter-call alphabet) on the constructed flow graph. -/
theorem C5_center_freq_and_range_res_witness :
    SetterCall.writesRangeRes (SetterCall.center_freq 5800000000) = false ∧
    (applySetter construct (SetterCall.center_freq 5800000000)).range_res =
      construct.range_res :=
  ⟨rfl, C5_center_freq_and_range_res.2 (SetterCall.center_freq 5800000000) construct rfl⟩

/-- C6 counterexample: no setter of the flow graph ever changes the peak
detector's search window `max_freq`; it is fixed at `[-300,300]` from
construction, so the claimed runtime mutation path for the restricted
search window does not exist. -/
theorem C6_counterexample :
    ¬ ∃ (c : SetterCall) (s : usrp_echotimer_dual_cw_rcs),
      (applySetter s c).find_max_peak_max_freq ≠ s.find_max_peak_max_freq := by
  rintro ⟨c, s, hc⟩
  cases c <;> exact hc rfl

/-- C6 as amended: the magnitude threshold and the guard width have
runtime mutation paths (`set_threshold` and `set_samp_protect` push the
new value to the live peak-detector block), but the restricted search
window has none: every setter leaves it unchanged, and it holds its
construction value `[-300,300]`. -/
theorem C6_amended_peak_tuning :
    (∀ (s : usrp_echotimer_dual_cw_rcs) (v : ℚ),
      (s.set_threshold v).find_max_peak_threshold = v) ∧
    (∀ (s : usrp_echotimer_dual_cw_rcs) (v : ℚ),
      (s.set_samp_protect v).find_max_peak_samp_protect = pyInt v) ∧
    (∀ (c : SetterCall) (s : usrp_echotimer_dual_cw_rcs),
      (applySetter s c).find_max_peak_max_freq = s.find_max_peak_max_freq) ∧
    construct.find_max_peak_max_freq = (-300, 300) := by
  refine ⟨fun _ _ => rfl, fun _ _ => rfl, fun c s => ?_, rfl⟩
  cases c <;> rfl

/-- Helper: swapping the two inputs of a conjugate multiplication
conjugates the product. -/
lemma mul_conj_swap (x y : GrComplex) : x.mul y.conj = (y.mul x.conj).conj := by
  simp only [GrComplex.mul, GrComplex.conj, GrComplex.mk.injEq]
  constructor <;> ring

/-- C7: for every pair of equal-length complex frames `A` and `B`, the
self-mixer's per-index conjugate multiplication applied to `(A, B)`
yields, index by index, the complex conjugate of its result on `(B, A)`. -/
theorem C7_self_mixer_conjugate_swap (a b : List GrComplex) (h : a.length = b.length) :
    multiply_conjugate_cc a b = (multiply_conjugate_cc b a).map GrComplex.conj := by
  clear h
  induction a generalizing b with
  | nil => cases b <;> rfl
  | cons x a ih =>
      cases b with
      | nil => rfl
      | cons y b =>
          show x.mul y.conj :: multiply_conjugate_cc a b =
            (y.mul x.conj).conj :: (multiply_conjugate_cc b a).map GrComplex.conj
          rw [mul_conj_swap x y, ih b]

/-- Witness for C7 on two concrete two-sample frames. -/
theorem C7_self_mixer_conjugate_swap_witness :
    ([⟨1, 2⟩, ⟨3, 4⟩] : List GrComplex).length =
      ([⟨5, 6⟩, ⟨0, -1⟩] : List GrComplex).length ∧
    multiply_conjugate_cc [⟨1, 2⟩, ⟨3, 4⟩] [⟨5, 6⟩, ⟨0, -1⟩] =
      (multiply_conjugate_cc [⟨5, 6⟩, ⟨0, -1⟩] [⟨1, 2⟩, ⟨3, 4⟩]).map GrComplex.conj :=
  ⟨rfl, C7_self_mixer_conjugate_swap [⟨1, 2⟩, ⟨3, 4⟩] [⟨5, 6⟩, ⟨0, -1⟩] rfl⟩

/-- C8 counterexample: no configuration-time rejection exists.  The
default configuration itself carries a negative threshold (`-200`) and the
pipeline is started with it; `set_amplitude(-1)` succeeds and stores the
negative amplitude; `set_decim_fac(2.5)` succeeds, stores the fractional
factor and computes the scalar `1/2.5 = 0.4` without any error. -/
theorem C8_counterexample :
    construct.threshold = -200 ∧ ((-200 : ℚ) < 0) ∧
    (construct.set_amplitude (-1)).amplitude = -1 ∧
    (construct.set_decim_fac (5/2)).decim_fac = 5/2 ∧
    (construct.set_decim_fac (5/2)).tagged_stream_multiply_length_0_scalar = 2/5 := by
  refine ⟨rfl, by norm_num, rfl, rfl, ?_⟩
  show 1 / ((5 : ℚ)/2) = 2/5
  norm_num

/-- C8 as amended: the flow graph performs no configuration-time
validation at all — every setter accepts and stores every value, including
fractional decimation factors and negative amplitudes or thresholds, and
the default configuration itself uses the negative threshold `-200`. -/
theorem C8_amended_no_validation :
    (∀ (s : usrp_echotimer_dual_cw_rcs) (v : ℚ),
      (s.set_amplitude v).amplitude = v) ∧
    (∀ (s : usrp_echotimer_dual_cw_rcs) (v : ℚ),
      (s.set_decim_fac v).decim_fac = v ∧
      (s.set_decim_fac v).tagged_stream_multiply_length_0_scalar = 1 / v) ∧
    (∀ (s : usrp_echotimer_dual_cw_rcs) (v : ℚ),
      (s.set_threshold v).threshold = v) ∧
    construct.threshold = -200 :=
  ⟨fun _ _ => rfl, fun _ _ => ⟨rfl, rfl⟩, fun _ _ => rfl, rfl⟩

/-- C9: for every top-level parameter, calling the setter and then the
getter returns exactly the value that was set. -/
theorem C9_getter_setter_roundtrip :
    (∀ (s : usrp_echotimer_dual_cw_rcs) (v : ℚ), get_samp_rate (s.set_samp_rate v) = v) ∧
    (∀ (s : usrp_echotimer_dual_cw_rcs) (v : ℚ), get_packet_len (s.set_packet_len v) = v) ∧
    (∀ (s : usrp_echotimer_dual_cw_rcs) (v : ℚ × ℚ), get_freq (s.set_freq v) = v) ∧
    (∀ (s : usrp_echotimer_dual_cw_rcs) (v : ℚ), get_center_freq (s.set_center_freq v) = v) ∧
    (∀ (s : usrp_echotimer_dual_cw_rcs) (v : ℚ), get_threshold (s.set_threshold v) = v) ∧
    (∀ (s : usrp_echotimer_dual_cw_rcs) (v : ℚ), get_samp_protect (s.set_samp_protect v) = v) ∧
    (∀ (s : usrp_echotimer_dual_cw_rcs) (v : ℚ), get_gain_tx (s.set_gain_tx v) = v) ∧
    (∀ (s : usrp_echotimer_dual_cw_rcs) (v : ℚ), get_gain_rx (s.set_gain_rx v) = v) ∧
    (∀ (s : usrp_echotimer_dual_cw_rcs) (v : ℚ), get_delay_samp (s.set_delay_samp v) = v) ∧
    (∀ (s : usrp_echotimer_dual_cw_rcs) (v : ℚ), get_decim_fac (s.set_decim_fac v) = v) ∧
    (∀ (s : usrp_echotimer_dual_cw_rcs) (v : ℚ), get_amplitude (s.set_amplitude v) = v) ∧
    (∀ (s : usrp_echotimer_dual_cw_rcs) (v : ℚ), get_range_time (s.set_range_time v) = v) :=
  ⟨fun _ _ => rfl, fun _ _ => rfl, fun _ _ => rfl, fun _ _ => rfl, fun _ _ => rfl,
   fun _ _ => rfl, fun _ _ => rfl, fun _ _ => rfl, fun _ _ => rfl, fun _ _ => rfl,
   fun _ _ => rfl, fun _ _ => rfl⟩

/-- C10: the two processing channels are configured symmetrically — the
two signal generators share packet length, sample rate and amplitude and
differ only in tone frequency (`freq[0]` versus `freq[1]`), the two
resamplers share the decimation factor, the two length-scaling stages
share the scalar `1/decim_fac`, the two FFT stages share the transform
length `packet_len//decim_fac` — and `set_decim_fac` keeps the two
channels' tag scalars equal. -/
theorem C10_channel_symmetry :
    construct.signal_generator_0_packet_len = construct.signal_generator_0_0_packet_len ∧
    construct.signal_generator_0_samp_rate = construct.signal_generator_0_0_samp_rate ∧
    construct.signal_generator_0_amplitude = construct.signal_generator_0_0_amplitude ∧
    construct.signal_generator_0_freq = construct.freq.1 ∧
    construct.signal_generator_0_0_freq = construct.freq.2 ∧
    construct.signal_generator_0_freq ≠ construct.signal_generator_0_0_freq ∧
    construct.rational_resampler_0_decimation = construct.rational_resampler_0_0_decimation ∧
    (construct.rational_resampler_0_decimation : ℚ) = construct.decim_fac ∧
    construct.tagged_stream_multiply_length_0_scalar =
      construct.tagged_stream_multiply_length_0_0_scalar ∧
    construct.tagged_stream_multiply_length_0_scalar = 1 / construct.decim_fac ∧
    construct.ts_fft_0_len = construct.ts_fft_0_0_len ∧
    construct.ts_fft_0_len = 2097152 / 128 ∧
    ∀ (s : usrp_echotimer_dual_cw_rcs) (v : ℚ),
      (s.set_decim_fac v).tagged_stream_multiply_length_0_scalar =
        (s.set_decim_fac v).tagged_stream_multiply_length_0_0_scalar := by
  refine ⟨rfl, rfl, rfl, rfl, rfl, ?_, rfl, by norm_num [construct], rfl, rfl, rfl, rfl,
    fun _ _ => rfl⟩
  show (-3000000 : ℚ) ≠ 3000000
  norm_num
